import Mathlib

/-!
Verification of the `rag_chatbot` pipeline core against its design spec.

The development shallowly embeds the Python source:

* `app/ragg_manager.py` — the `RAGManager` orchestrator: constructor
  (configuration coercion), the tenacity retry factory, the three stage
  operations (`generate_embedding`, `search_documents`, `generate_answer`)
  and the `answer_query` pipeline.
* `app/utils.py` — `trim_to_token_limit`, the context trimmer.
* `app/azure_checks.py` — `validate_azure_endpoints`, the startup validator.

External I/O is modelled by oracles: an `Env` assigns to every attempt
number the HTTP outcome the network would produce for that attempt, and the
startup validator receives a function from endpoint value to probe outcome.
The retry executor embeds the semantics of the `tenacity` library actually
used by the source (`AsyncRetrying` with `retry_if_exception_type`,
`wait_exponential(min=…, max=…)`, `stop_after_attempt(n)`, and the default
`reraise=False`, under which exhaustion raises `RetryError(last_attempt)`).
-/

/-- The exceptions relevant to the retry policy of `ragg_manager.py`.
`clientError` models `aiohttp.ClientError`, `timeoutError` models
`asyncio.TimeoutError`, `ragError` models the module's own `RAGError`,
`otherError` models any exception outside those types (e.g. a `KeyError`
while digging into a response payload), and `retryError` models
`tenacity.RetryError`, which wraps the final attempt's exception when the
attempt budget is exhausted. -/
inductive PyExc where
  | clientError (msg : String)
  | timeoutError
  | ragError (msg : String)
  | otherError (msg : String)
  | retryError (last : PyExc)
deriving DecidableEq, Repr

/-- Predicate `retry_if_exception_type((aiohttp.ClientError, asyncio.TimeoutError, RAGError))`
from `RAGManager.__init__._make_retry` (ragg_manager.py line 59). -/
def isRetryable : PyExc → Bool
  | .clientError _ => true
  | .timeoutError => true
  | .ragError _ => true
  | .otherError _ => false
  | .retryError _ => false

/-- The three knobs handed to tenacity by `_make_retry`
(ragg_manager.py lines 57–62): `stop_after_attempt(retry_attempts)`,
`wait_exponential(min=retry_min_wait, max=retry_max_wait)`. -/
structure RetryConfig where
  attempts : Int
  minWait : Int
  maxWait : Int
deriving DecidableEq, Repr

/-- tenacity's `wait_exponential(multiplier=1, min=minW, max=maxW)` evaluated
at `retry_state.attempt_number = attemptNumber`:
`max(max(0, min), min(multiplier * exp_base ** (attempt_number - 1), max))`
with `multiplier = 1` and `exp_base = 2` (tenacity/wait.py,
`wait_exponential.__call__`). -/
def waitExponential (minW maxW : Int) (attemptNumber : Nat) : Int :=
  max (max 0 minW) (min (2 ^ (attemptNumber - 1)) maxW)

/-- Trace of one run of a tenacity `AsyncRetrying` loop: the final outcome,
the number of times the wrapped operation body ran, and the sleeps performed
between consecutive attempts (in order). -/
structure RetryTrace (α : Type) where
  result : Except PyExc α
  attempts : Nat
  waits : List Int

/-- One `async for attempt in self._retry_factory(): with attempt: …` loop,
as executed by tenacity's `BaseRetrying.iter`:
the body always runs at least once; a success returns immediately; a failure
whose exception is outside the retryable set is re-raised unchanged
(`fut.result()`); a retryable failure at the stop boundary
(`attempt_number >= max_attempt_number`, with the default `reraise=False`)
raises `RetryError` wrapping the last attempt; otherwise the loop sleeps
`wait_exponential(...)` and runs the body again. `fuel` is the number of
retries still allowed and `i` the current 1-based attempt number. -/
def runRetryGo (op : Nat → Except PyExc α) (minW maxW : Int) :
    Nat → Nat → RetryTrace α
  | 0, i =>
    match op i with
    | .ok a => ⟨.ok a, i, []⟩
    | .error e =>
      if isRetryable e then ⟨.error (.retryError e), i, []⟩
      else ⟨.error e, i, []⟩
  | fuel + 1, i =>
    match op i with
    | .ok a => ⟨.ok a, i, []⟩
    | .error e =>
      if isRetryable e then
        let rest := runRetryGo op minW maxW fuel (i + 1)
        ⟨rest.result, rest.attempts, waitExponential minW maxW i :: rest.waits⟩
      else ⟨.error e, i, []⟩

/-- Run an operation under the retry policy built by `_make_retry`
(ragg_manager.py lines 57–62).  With `stop_after_attempt(n)` the stop
predicate is `attempt_number >= n`, so starting from attempt 1 the loop has
`(n - 1).toNat` retries left (tenacity always runs the first attempt, so
`n <= 0` still yields one attempt before `RetryError`). -/
def runRetry (cfg : RetryConfig) (op : Nat → Except PyExc α) : RetryTrace α :=
  runRetryGo op cfg.minWait cfg.maxWait (cfg.attempts - 1).toNat 1

/-- Function `trim_to_token_limit` from `app/utils.py` (lines 38–57), on the
deterministic character-based path (`tiktoken` is an optional dependency;
when its import fails the function falls back to the 4-characters-per-token
estimate).  `approx_chars = max_tokens * 4`; a text of at most that many
characters is returned unchanged, otherwise the Python slice
`text[-approx_chars:]` is returned.  Note that for `approx_chars = 0` the
slice `text[-0:]` is `text[0:]`, i.e. the whole string, which the second
branch reproduces. -/
def trim_to_token_limit (text : String) (max_tokens : Nat) : String :=
  let approx_chars := max_tokens * 4
  if text.length ≤ approx_chars then text
  else if approx_chars = 0 then text
  else ⟨text.data.drop (text.length - approx_chars)⟩

/-- The estimated token count matching the 4-characters-per-token
approximation used by `trim_to_token_limit`'s fallback: the number of
4-character groups, rounded up. -/
def estimated_tokens (text : String) : Nat :=
  (text.length + 3) / 4

/-- One outbound HTTP POST outcome as seen by a stage body: a response with
a status code and an (already JSON-decoded) payload, an
`asyncio.TimeoutError`, or an `aiohttp.ClientError`. -/
inductive HttpResult (β : Type) where
  | resp (status : Nat) (payload : β)
  | timeout
  | netError (msg : String)

/-- The network oracle for one `answer_query` call: for each stage, the HTTP
outcome of that stage's i-th attempt.  Payloads are the values the source
digs out of the JSON bodies: the embedding vector at
`data["data"][0]["embedding"]` (`none` models the path being absent, which
raises a non-retryable `KeyError`/`IndexError` in Python); the search
response's `value` list of items, each with an optional `content` field
(a missing `"value"` key defaults to the empty list via
`results.get("value", [])`); the chat content at
`data["choices"][0]["message"]["content"]`.  Floats are opaque to every
claim, so vector components are carried as `Int`. -/
structure Env where
  embedHttp : Nat → HttpResult (Option (List Int))
  searchHttp : Nat → HttpResult (List (Option String))
  chatHttp : Nat → HttpResult (Option String)

/-- The body of one attempt of `RAGManager.generate_embedding`
(ragg_manager.py lines 75–92): a timeout becomes
`RAGError("Embedding generation timed out.")`, a transport fault becomes
`RAGError("Embedding request failed: …")`, a non-200 status becomes
`RAGError("Embedding failed (status): …")` (response body text elided), and
a 200 response yields `data["data"][0]["embedding"]` — whose absence raises
outside the retryable exception types. -/
def embedAttempt (env : Env) (i : Nat) : Except PyExc (List Int) :=
  match env.embedHttp i with
  | .timeout => .error (.ragError "Embedding generation timed out.")
  | .netError e => .error (.ragError ("Embedding request failed: " ++ e))
  | .resp status payload =>
    if status ≠ 200 then
      .error (.ragError ("Embedding failed (" ++ toString status ++ ")"))
    else
      match payload with
      | some v => .ok v
      | none => .error (.otherError "KeyError: data")

/-- The body of one attempt of the search POST in
`RAGManager.search_documents` (ragg_manager.py lines 112–130): same failure
mapping as the embed body; a 200 response yields
`[doc.get("content", "") for doc in results.get("value", [])]`, i.e. a
missing `content` degrades to the empty string. -/
def searchAttempt (env : Env) (_embedding : List Int) (i : Nat) :
    Except PyExc (List String) :=
  match env.searchHttp i with
  | .timeout => .error (.ragError "Search request timed out.")
  | .netError e => .error (.ragError ("Search request failed: " ++ e))
  | .resp status payload =>
    if status ≠ 200 then
      .error (.ragError ("Search failed (" ++ toString status ++ ")"))
    else
      .ok (payload.map (fun d => d.getD ""))

/-- The body of one attempt of the chat POST in `RAGManager.generate_answer`
(ragg_manager.py lines 171–188): same failure mapping; a 200 response
yields `data["choices"][0]["message"]["content"]`.  The request payload
(the two messages, `temperature=0.2`, `max_tokens=400`) does not influence
the oracle's answer, but is carried to mirror the source's data flow. -/
def chatAttempt (env : Env) (_userContent : String) (i : Nat) :
    Except PyExc String :=
  match env.chatHttp i with
  | .timeout => .error (.ragError "Chat generation timed out.")
  | .netError e => .error (.ragError ("Chat request failed: " ++ e))
  | .resp status payload =>
    if status ≠ 200 then
      .error (.ragError ("Chat generation failed (" ++ toString status ++ ")"))
    else
      match payload with
      | some content => .ok content
      | none => .error (.otherError "KeyError: choices")

/-- Method `RAGManager.generate_embedding` (ragg_manager.py lines 66–92): the embed
attempt body run under the tenant's retry policy.  The query only shapes the
request payload `{input: query}`, which the oracle abstracts over. -/
def generate_embedding (cfg : RetryConfig) (env : Env) (_query : String) :
    RetryTrace (List Int) :=
  runRetry cfg (embedAttempt env)

/-- Trace of `RAGManager.search_documents`: its result plus how many times
each of the two inner attempt bodies ran. -/
structure SearchTrace where
  result : Except PyExc (List String)
  embedCalls : Nat
  searchCalls : Nat

/-- Method `RAGManager.search_documents` (ragg_manager.py lines 94–130):
`embedding = await self.generate_embedding(query)` runs first, and any
exception it raises propagates before the search request loop starts; on
success the search POST runs under its own retry loop (`k = 5` only shapes
the request payload). -/
def search_documents (cfg : RetryConfig) (env : Env) (query : String) :
    SearchTrace :=
  let e := generate_embedding cfg env query
  match e.result with
  | .error err => ⟨.error err, e.attempts, 0⟩
  | .ok emb =>
    let s := runRetry cfg (searchAttempt env emb)
    ⟨s.result, e.attempts, s.attempts⟩

/-- Method `RAGManager.generate_answer` (ragg_manager.py lines 132–188): the
context is trimmed with `trim_to_token_limit(context, max_tokens=3000)`
(the `app.utils` import succeeds, so the 7000-character fallback branch is
dead), the two-message prompt is assembled with the user message
`"Context:\n{context}\n\nQuestion: {query}"`, and the chat POST runs under
the retry policy. -/
def generate_answer (cfg : RetryConfig) (env : Env) (query context : String) :
    RetryTrace String :=
  let trimmed := trim_to_token_limit context 3000
  let userContent := "Context:\n" ++ trimmed ++ "\n\nQuestion: " ++ query
  runRetry cfg (chatAttempt env userContent)

/-- Trace of one `RAGManager.answer_query` call: the returned
`(answer, sources)` pair or the propagated exception, the per-stage attempt
counts, and the `context` argument handed to `generate_answer` (when the
pipeline reached that call). -/
structure PipelineTrace where
  result : Except PyExc (String × List String)
  embedCalls : Nat
  searchCalls : Nat
  chatCalls : Nat
  contextArg : Option String

/-- Method `RAGManager.answer_query` (ragg_manager.py lines 190–195):
`docs = await self.search_documents(query)`;
`context = "\n\n".join(docs) if docs else "No relevant documents found."`;
`answer = await self.generate_answer(query, context)`;
`return answer, docs`. -/
def answer_query (cfg : RetryConfig) (env : Env) (query : String) :
    PipelineTrace :=
  let s := search_documents cfg env query
  match s.result with
  | .error e => ⟨.error e, s.embedCalls, s.searchCalls, 0, none⟩
  | .ok docs =>
    let context :=
      if docs.isEmpty then "No relevant documents found."
      else String.intercalate "\n\n" docs
    let g := generate_answer cfg env query context
    match g.result with
    | .error e => ⟨.error e, s.embedCalls, s.searchCalls, g.attempts, some context⟩
    | .ok answer =>
      ⟨.ok (answer, docs), s.embedCalls, s.searchCalls, g.attempts, some context⟩

/-- A Python value as it may appear in a tenant `client_config` dictionary:
a string or an integer. -/
inductive PyVal where
  | vStr (s : String)
  | vInt (n : Int)
deriving DecidableEq, Repr

/-- Python truthiness for the values above: the empty string and `0` are
falsy, everything else truthy. -/
def truthy : PyVal → Bool
  | .vStr s => decide (s ≠ "")
  | .vInt n => decide (n ≠ 0)

/-- Truthiness of an optional value: Python's `None` is falsy. -/
def truthyOpt : Option PyVal → Bool
  | none => false
  | some v => truthy v

/-- Python's short-circuiting `a or b`: `a` when truthy, otherwise `b`
(returned as-is, even when falsy). -/
def pyOr (a b : Option PyVal) : Option PyVal :=
  if truthyOpt a then a else b

/-- Digit run to a number; `none` when empty or a non-digit appears. -/
def digitsToNat (cs : List Char) : Option Nat :=
  if cs.isEmpty then none
  else if cs.all Char.isDigit then
    some (cs.foldl (fun acc c => acc * 10 + (c.toNat - '0'.toNat)) 0)
  else none

/-- Python's `int(s)` on a string: surrounding whitespace is ignored, an
optional single sign precedes a non-empty digit run; anything else raises
`ValueError` (digit-group underscores are not modelled — no claim touches
them). -/
def parsePyInt (s : String) : Option Int :=
  let cs := ((s.data.dropWhile Char.isWhitespace).reverse.dropWhile
    Char.isWhitespace).reverse
  match cs with
  | '-' :: rest => (digitsToNat rest).map (fun n => -(n : Int))
  | '+' :: rest => (digitsToNat rest).map (fun n => (n : Int))
  | rest => (digitsToNat rest).map (fun n => (n : Int))

/-- Python's `int(x)` on a config value: an `int` passes through, a string
is parsed (or `ValueError` is raised). -/
def pyInt : PyVal → Except String Int
  | .vInt n => .ok n
  | .vStr s =>
    match parsePyInt s with
    | some n => .ok n
    | none => .error ("invalid literal for int() with base 10: " ++ s)

/-- Coercion `int(client_config.get(key, default))` as used on ragg_manager.py
lines 49–54: the stored value is coerced when the key is present, otherwise
the (already-integer) default is used. -/
def getIntField (cfg : List (String × PyVal)) (key : String) (default : Int) :
    Except String Int :=
  match List.lookup key cfg with
  | some v => pyInt v
  | none => .ok default

/-- The attribute state a `RAGManager` holds after `__init__`
(ragg_manager.py lines 16–64).  String-like fields are `Option PyVal`
because `dict.get` yields `None` for absent keys and the constructor stores
whatever it finds; the shared `aiohttp` session and the retry factory
closure carry no data beyond the numeric fields already recorded here. -/
structure RAGManager where
  search_endpoint : Option PyVal
  search_api_key : Option PyVal
  index_name : Option PyVal
  openai_endpoint : Option PyVal
  openai_api_key : Option PyVal
  deployment_name : Option PyVal
  embedding_deployment : Option PyVal
  embedding_timeout : Int
  search_timeout : Int
  chat_timeout : Int
  retry_attempts : Int
  retry_min_wait : Int
  retry_max_wait : Int
deriving DecidableEq, Repr

/-- Constructor `RAGManager.__init__` (ragg_manager.py lines 16–64).  The six endpoint,
key and deployment fields are read with `client_config.get` and stored
without any check; `embedding_deployment` is
`embedding_deployment or client_config.get("embedding_deployment") or
self.deployment_name` (Python `or`, so falsy values fall through); the six
numeric fields are coerced with `int(client_config.get(key, default))`, in
source order — these coercions are the only statements in the constructor
that can raise. -/
def RAGManager.init (client_config : List (String × PyVal))
    (embedding_deployment : Option String)
    (embedding_timeout search_timeout chat_timeout
      retry_attempts retry_min_wait retry_max_wait : Int) :
    Except String RAGManager := do
  let se := List.lookup "search_endpoint" client_config
  let sk := List.lookup "search_api_key" client_config
  let ix := List.lookup "index_name" client_config
  let oe := List.lookup "openai_endpoint" client_config
  let oak := List.lookup "openai_api_key" client_config
  let dn := List.lookup "deployment_name" client_config
  let ed := pyOr (embedding_deployment.map PyVal.vStr)
    (pyOr (List.lookup "embedding_deployment" client_config) dn)
  let et ← getIntField client_config "embedding_timeout" embedding_timeout
  let st ← getIntField client_config "search_timeout" search_timeout
  let ct ← getIntField client_config "chat_timeout" chat_timeout
  let ra ← getIntField client_config "retry_attempts" retry_attempts
  let rminw ← getIntField client_config "retry_min_wait" retry_min_wait
  let rmaxw ← getIntField client_config "retry_max_wait" retry_max_wait
  return ⟨se, sk, ix, oe, oak, dn, ed, et, st, ct, ra, rminw, rmaxw⟩

/-- Construction `RAGManager(client_config, session=…)` with every keyword argument left
at its declared default (`embedding_deployment=None`, timeouts 15/20/30,
retries 3/1/8), the way `app/main.py` line 81 constructs managers. -/
def RAGManager.initDefault (client_config : List (String × PyVal)) :
    Except String RAGManager :=
  RAGManager.init client_config none 15 20 30 3 1 8

/-- The six numeric configuration keys coerced with `int()` on
ragg_manager.py lines 49–54, in source order. -/
def numericFields : List String :=
  ["embedding_timeout", "search_timeout", "chat_timeout",
   "retry_attempts", "retry_min_wait", "retry_max_wait"]

/-- Outcome of `session.get(openai_endpoint, timeout=…)` in
`app/azure_checks.py`: a response with a status code, or any raised
exception (connection faults and timeouts alike). -/
inductive ProbeOutcome where
  | resp (status : Nat)
  | exc (msg : String)
deriving DecidableEq, Repr

/-- Helper `_check_client` from `validate_azure_endpoints`
(azure_checks.py lines 16–28): a falsy or absent `openai_endpoint` yields
`False` without probing; otherwise the endpoint is probed and the result is
`resp.status == 200 or resp.status == 401 or resp.status == 403`, with any
exception from the probe caught and turned into `False`. -/
def _check_client (net : PyVal → ProbeOutcome)
    (cfg : List (String × PyVal)) : Bool :=
  match List.lookup "openai_endpoint" cfg with
  | some v =>
    if truthy v then
      match net v with
      | .resp s => s == 200 || s == 401 || s == 403
      | .exc _ => false
    else false
  | none => false

/-- Function `validate_azure_endpoints` (azure_checks.py lines 6–40): one
`_check_client` task per configured client, awaited in key order with a
`try/except` that maps any task failure to `False` (the per-client body
already catches everything, so the model is total).  The concurrent fan-out
is order-independent, so the sequential map is an exact model of the
resulting report. -/
def validate_azure_endpoints (net : PyVal → ProbeOutcome)
    (clients_config : List (String × List (String × PyVal))) :
    List (String × Bool) :=
  clients_config.map (fun p => (p.1, _check_client net p.2))

/-- An operation that fails on every attempt with the retryable `RAGError`. -/
def boomOp : Nat → Except PyExc Unit := fun _ => .error (.ragError "boom")

/-- An operation that fails on every attempt with a non-retryable
exception (e.g. a `KeyError`). -/
def keyErrorOp : Nat → Except PyExc Unit := fun _ => .error (.otherError "KeyError")

/-- Oracle for the spec's happy-path scenario: embedding `[0.1, 0.2, 0.3]`
(components opaque), documents `doc1`/`doc2`, chat answer `answered text`. -/
def envTwoDocs : Env :=
  ⟨fun _ => .resp 200 (some [1, 2, 3]),
   fun _ => .resp 200 [some "doc1", some "doc2"],
   fun _ => .resp 200 (some "answered text")⟩

/-- Oracle whose search stage succeeds with zero documents. -/
def envEmptySearch : Env :=
  ⟨fun _ => .resp 200 (some [1]),
   fun _ => .resp 200 [],
   fun _ => .resp 200 (some "answered text")⟩

/-- Oracle whose embedding endpoint times out on every attempt. -/
def envEmbedTimeout : Env :=
  ⟨fun _ => .timeout,
   fun _ => .resp 200 [],
   fun _ => .resp 200 (some "x")⟩

/-- Probe behaviour for the spec's validator scenario: tenant A's endpoint
answers 401, everything else times out. -/
def probeNet : PyVal → ProbeOutcome := fun v =>
  match v with
  | .vStr "https://a" => .resp 401
  | _ => .exc "timeout"

/-- Tenant map for the validator scenario. -/
def probeClients : List (String × List (String × PyVal)) :=
  [("A", [("openai_endpoint", PyVal.vStr "https://a")]),
   ("B", [("openai_endpoint", PyVal.vStr "https://b")])]

lemma runRetryGo_ok {α : Type} (op : Nat → Except PyExc α) (minW maxW : Int)
    (a : α) (fuel i : Nat) (h : op i = .ok a) :
    runRetryGo op minW maxW fuel i = ⟨.ok a, i, []⟩ := by
  cases fuel <;> simp [runRetryGo, h]

lemma runRetryGo_allFail {α : Type} (op : Nat → Except PyExc α)
    (minW maxW : Int) (errf : Nat → PyExc)
    (hop : ∀ i, op i = .error (errf i))
    (hr : ∀ i, isRetryable (errf i) = true) :
    ∀ fuel i,
      (runRetryGo op minW maxW fuel i).attempts = i + fuel ∧
      (runRetryGo op minW maxW fuel i).result =
        .error (.retryError (errf (i + fuel))) ∧
      (runRetryGo op minW maxW fuel i).waits =
        (List.range fuel).map (fun j => waitExponential minW maxW (i + j)) := by
  intro fuel
  induction fuel with
  | zero =>
    intro i
    simp [runRetryGo, hop i, hr i]
  | succ f ih =>
    intro i
    obtain ⟨h1, h2, h3⟩ := ih (i + 1)
    have hi : i + 1 + f = i + (f + 1) := by omega
    rw [hi] at h1 h2
    refine ⟨?_, ?_, ?_⟩
    · simp [runRetryGo, hop i, hr i, h1]
    · simp [runRetryGo, hop i, hr i, h2]
    · simp only [runRetryGo, hop i, hr i, if_true, h3]
      rw [List.range_succ_eq_map, List.map_cons, List.map_map]
      refine congrArg₂ _ (by simp) ?_
      refine List.map_congr_left (fun j _ => ?_)
      simp only [Function.comp]
      exact congrArg _ (by omega)

/-- C1 (amended): with `maxAttempts = n ≥ 1`, an operation failing on every
attempt with a retryable kind is invoked exactly n times, but the failure
finally reported is tenacity's `RetryError` wrapping the last attempt's
failure — the root cause is preserved inside the wrapper, yet the reported
exception is not the last failure itself. -/
theorem retry_exhausts_and_wraps {α : Type} (cfg : RetryConfig)
    (op : Nat → Except PyExc α) (errf : Nat → PyExc) (n : Nat)
    (hn : 1 ≤ n) (hcfg : cfg.attempts = (n : Int))
    (hop : ∀ i, op i = .error (errf i))
    (hr : ∀ i, isRetryable (errf i) = true) :
    (runRetry cfg op).attempts = n ∧
    (runRetry cfg op).result = .error (.retryError (errf n)) := by
  have hf : (cfg.attempts - 1).toNat = n - 1 := by rw [hcfg]; omega
  unfold runRetry
  rw [hf]
  obtain ⟨h1, h2, -⟩ :=
    runRetryGo_allFail op cfg.minWait cfg.maxWait errf hop hr (n - 1) 1
  have hi : 1 + (n - 1) = n := by omega
  rw [hi] at h1 h2
  exact ⟨h1, h2⟩

/-- Witness for C1's theorem at `maxAttempts = 2` and an operation failing
with `RAGError("boom")` on every attempt. -/
theorem retry_exhausts_and_wraps_witness :
    1 ≤ 2 ∧ (⟨2, 1, 8⟩ : RetryConfig).attempts = ((2 : Nat) : Int) ∧
    ((runRetry ⟨2, 1, 8⟩ boomOp).attempts = 2 ∧
     (runRetry ⟨2, 1, 8⟩ boomOp).result =
       .error (.retryError (.ragError "boom"))) :=
  ⟨by decide, by decide,
   retry_exhausts_and_wraps ⟨2, 1, 8⟩ boomOp (fun _ => .ragError "boom") 2
     (by decide) (by decide) (fun _ => rfl) (fun _ => rfl)⟩

/-- C1 counterexample: at `maxAttempts = 2` the operation failing every
attempt with `RAGError("boom")` is invoked exactly twice, but the reported
failure is not `RAGError("boom")` (it is the wrapping `RetryError`). -/
theorem retry_wraps_counterexample :
    (runRetry ⟨2, 1, 8⟩ boomOp).attempts = 2 ∧
    (runRetry ⟨2, 1, 8⟩ boomOp).result ≠ .error (.ragError "boom") := by
  have h2 : (runRetry ⟨2, 1, 8⟩ boomOp).result =
      .error (.retryError (.ragError "boom")) := rfl
  refine ⟨rfl, ?_⟩
  rw [h2]
  intro h
  simp at h

/-- C3 (amended): for a configuration with `maxAttempts = n ≥ 1` and an
operation failing on every attempt with a retryable kind, exactly n − 1
waits are performed (none after the final attempt), and the wait between
attempt i and attempt i + 1 (the entry at index i − 1, i.e. `j = i − 1`
below) is `max(max(0, minWait), min(2^(i-1), maxWait))`: tenacity's
`wait_exponential` uses `minWait` as a lower clamp, not as a multiplier. -/
theorem backoff_schedule_clamped {α : Type} (cfg : RetryConfig)
    (op : Nat → Except PyExc α) (errf : Nat → PyExc) (n : Nat)
    (hn : 1 ≤ n) (hcfg : cfg.attempts = (n : Int))
    (hop : ∀ i, op i = .error (errf i))
    (hr : ∀ i, isRetryable (errf i) = true) :
    (runRetry cfg op).waits =
      (List.range (n - 1)).map
        (fun j => max (max 0 cfg.minWait) (min (2 ^ j) cfg.maxWait)) := by
  have hf : (cfg.attempts - 1).toNat = n - 1 := by rw [hcfg]; omega
  unfold runRetry
  rw [hf]
  obtain ⟨-, -, h3⟩ :=
    runRetryGo_allFail op cfg.minWait cfg.maxWait errf hop hr (n - 1) 1
  rw [h3]
  refine List.map_congr_left (fun j _ => ?_)
  show waitExponential cfg.minWait cfg.maxWait (1 + j) = _
  unfold waitExponential
  have : 1 + j - 1 = j := by omega
  rw [this]

/-- Witness for C3's theorem at `maxAttempts = 3`, `minWait = 3`,
`maxWait = 8`: the recorded waits are `[3, 3]`. -/
theorem backoff_schedule_clamped_witness :
    1 ≤ 3 ∧ (⟨3, 3, 8⟩ : RetryConfig).attempts = ((3 : Nat) : Int) ∧
    (runRetry ⟨3, 3, 8⟩ boomOp).waits =
      (List.range 2).map (fun j => max (max 0 (3 : Int)) (min (2 ^ j) 8)) :=
  ⟨by decide, by decide,
   backoff_schedule_clamped ⟨3, 3, 8⟩ boomOp (fun _ => .ragError "boom") 3
     (by decide) (by decide) (fun _ => rfl) (fun _ => rfl)⟩

/-- C3 counterexample: with `minWait = 3`, `maxWait = 8` the wait between
attempt 2 and attempt 3 is 3 seconds, not the claimed
`min(maxWait, minWait * 2^(2-1)) = 6`. -/
theorem backoff_multiplier_counterexample :
    (runRetry ⟨3, 3, 8⟩ boomOp).waits.get? 1 = some 3 ∧
    ¬ ((3 : Int) = min 8 (3 * 2 ^ (2 - 1))) := by
  decide

/-- C8: an operation whose first attempt fails with a kind outside the
retryable set is invoked exactly once, for every `maxAttempts`; the failure
propagates unchanged and no wait is performed. -/
theorem nonretryable_single_attempt {α : Type} (cfg : RetryConfig)
    (op : Nat → Except PyExc α) (e : PyExc)
    (hop : op 1 = .error e) (hnr : isRetryable e = false) :
    (runRetry cfg op).attempts = 1 ∧
    (runRetry cfg op).result = .error e ∧
    (runRetry cfg op).waits = [] := by
  unfold runRetry
  cases (cfg.attempts - 1).toNat <;> simp [runRetryGo, hop, hnr]

/-- Witness for C8's theorem at `maxAttempts = 5` and a first attempt
failing with a (non-retryable) `KeyError`. -/
theorem nonretryable_single_attempt_witness :
    keyErrorOp 1 = .error (.otherError "KeyError") ∧
    isRetryable (.otherError "KeyError") = false ∧
    ((runRetry ⟨5, 1, 8⟩ keyErrorOp).attempts = 1 ∧
     (runRetry ⟨5, 1, 8⟩ keyErrorOp).result = .error (.otherError "KeyError") ∧
     (runRetry ⟨5, 1, 8⟩ keyErrorOp).waits = []) :=
  ⟨rfl, rfl,
   nonretryable_single_attempt ⟨5, 1, 8⟩ keyErrorOp (.otherError "KeyError")
     rfl rfl⟩

/-- C5 (amended): for every text T and every token budget B ≥ 1, if T's
estimated token count is at most B then `trim_to_token_limit` returns T
unchanged, and otherwise it returns a (character) suffix of T whose
estimated token count is at most B.  (At B = 0 the Python slice `text[-0:]`
returns the whole text, so the bound fails there.) -/
theorem trim_token_budget (T : String) (B : Nat) (hB : 1 ≤ B) :
    (estimated_tokens T ≤ B → trim_to_token_limit T B = T) ∧
    (B < estimated_tokens T →
      (trim_to_token_limit T B).data.IsSuffix T.data ∧
      estimated_tokens (trim_to_token_limit T B) ≤ B) := by
  constructor
  · intro h
    have hlen : T.length ≤ B * 4 := by
      unfold estimated_tokens at h; omega
    simp [trim_to_token_limit, hlen]
  · intro h
    have hlen : ¬ T.length ≤ B * 4 := by
      unfold estimated_tokens at h; omega
    have hBz : ¬ B * 4 = 0 := by omega
    have htrim : trim_to_token_limit T B = ⟨T.data.drop (T.length - B * 4)⟩ := by
      simp [trim_to_token_limit, hlen, hBz]
    rw [htrim]
    refine ⟨⟨T.data.take (T.length - B * 4), List.take_append_drop _ _⟩, ?_⟩
    unfold estimated_tokens
    have hdata : T.length = T.data.length := rfl
    have hlength : (String.mk (T.data.drop (T.length - B * 4))).length = B * 4 := by
      show (T.data.drop (T.length - B * 4)).length = B * 4
      rw [List.length_drop]
      omega
    rw [hlength]
    omega

/-- Witness for C5's theorem at T = `"aaaaa"` (5 characters, 2 estimated
tokens) and B = 1: the result is a suffix fitting the budget. -/
theorem trim_token_budget_witness :
    1 ≤ 1 ∧ 1 < estimated_tokens "aaaaa" ∧
    ((trim_to_token_limit "aaaaa" 1).data.IsSuffix "aaaaa".data ∧
     estimated_tokens (trim_to_token_limit "aaaaa" 1) ≤ 1) :=
  ⟨by decide, by decide,
   (trim_token_budget "aaaaa" 1 (by decide)).2 (by decide)⟩

/-- C5 counterexample: at budget B = 0 and the one-character text `"a"`
(estimated token count 1 > 0), the trimmer returns the whole text, whose
estimated token count still exceeds the budget — the Python slice
`text[-0:]` keeps everything. -/
theorem trim_zero_budget_counterexample :
    trim_to_token_limit "a" 0 = "a" ∧
    ¬ estimated_tokens "a" ≤ 0 ∧
    ¬ estimated_tokens (trim_to_token_limit "a" 0) ≤ 0 :=
  ⟨rfl, by decide, by decide⟩

/-- C4: when the search stage succeeds with zero documents, `answer_query`
does not treat the empty retrieval as an error: the context handed to the
completion stage is exactly the literal `"No relevant documents found."`,
and (with the completion stage succeeding) the returned sources are the
empty sequence. -/
theorem answer_query_empty_retrieval (cfg : RetryConfig) (env : Env)
    (query : String)
    (hS : (search_documents cfg env query).result = .ok [])
    (hC : ∃ a, (generate_answer cfg env query
      "No relevant documents found.").result = .ok a) :
    (answer_query cfg env query).contextArg =
      some "No relevant documents found." ∧
    ∃ a, (answer_query cfg env query).result = .ok (a, []) := by
  obtain ⟨a, ha⟩ := hC
  simp only [answer_query, hS]
  simp [ha]

/-- Witness for C4's theorem on an oracle whose search stage returns an
empty `value` list. -/
theorem answer_query_empty_retrieval_witness :
    (search_documents ⟨3, 1, 8⟩ envEmptySearch "q").result = .ok [] ∧
    ((answer_query ⟨3, 1, 8⟩ envEmptySearch "q").contextArg =
       some "No relevant documents found." ∧
     ∃ a, (answer_query ⟨3, 1, 8⟩ envEmptySearch "q").result = .ok (a, [])) :=
  ⟨rfl, answer_query_empty_retrieval ⟨3, 1, 8⟩ envEmptySearch "q" rfl
    ⟨"answered text", rfl⟩⟩

/-- C6: when every embed attempt fails with a retryable kind and
`retryAttempts = n ≥ 1`, `answer_query` makes exactly n embed attempts,
zero search attempts and zero complete attempts, and fails (with the
`RetryError` produced by the exhausted embed loop). -/
theorem embed_failure_aborts_pipeline (cfg : RetryConfig) (env : Env)
    (query : String) (n : Nat) (hn : 1 ≤ n) (hcfg : cfg.attempts = (n : Int))
    (hop : ∀ i, ∃ e, embedAttempt env i = .error e ∧ isRetryable e = true) :
    (answer_query cfg env query).embedCalls = n ∧
    (answer_query cfg env query).searchCalls = 0 ∧
    (answer_query cfg env query).chatCalls = 0 ∧
    ∃ e, (answer_query cfg env query).result = .error (.retryError e) := by
  have hop' : ∀ i, embedAttempt env i =
      .error (Classical.choose (hop i)) :=
    fun i => (Classical.choose_spec (hop i)).1
  have hr : ∀ i, isRetryable (Classical.choose (hop i)) = true :=
    fun i => (Classical.choose_spec (hop i)).2
  have hf : (cfg.attempts - 1).toNat = n - 1 := by rw [hcfg]; omega
  obtain ⟨h1, h2, -⟩ := runRetryGo_allFail (embedAttempt env) cfg.minWait
    cfg.maxWait (fun i => Classical.choose (hop i)) hop' hr (n - 1) 1
  have hi : 1 + (n - 1) = n := by omega
  rw [hi] at h1 h2
  have hA : (runRetry cfg (embedAttempt env)).attempts = n := by
    unfold runRetry; rw [hf]; exact h1
  have hR : (runRetry cfg (embedAttempt env)).result =
      .error (.retryError (Classical.choose (hop n))) := by
    unfold runRetry; rw [hf]; exact h2
  have hs : search_documents cfg env query =
      ⟨.error (.retryError (Classical.choose (hop n))), n, 0⟩ := by
    simp only [search_documents, generate_embedding, hR, hA]
  simp only [answer_query, hs]
  exact ⟨trivial, trivial, trivial, ⟨Classical.choose (hop n), rfl⟩⟩

/-- Witness for C6's theorem: every embed attempt times out and
`retryAttempts = 3`. -/
theorem embed_failure_aborts_pipeline_witness :
    1 ≤ 3 ∧ (⟨3, 1, 8⟩ : RetryConfig).attempts = ((3 : Nat) : Int) ∧
    ((answer_query ⟨3, 1, 8⟩ envEmbedTimeout "q").embedCalls = 3 ∧
     (answer_query ⟨3, 1, 8⟩ envEmbedTimeout "q").searchCalls = 0 ∧
     (answer_query ⟨3, 1, 8⟩ envEmbedTimeout "q").chatCalls = 0 ∧
     ∃ e, (answer_query ⟨3, 1, 8⟩ envEmbedTimeout "q").result =
       .error (.retryError e)) :=
  ⟨by decide, by decide,
   embed_failure_aborts_pipeline ⟨3, 1, 8⟩ envEmbedTimeout "q" 3
     (by decide) (by decide)
     (fun _ => ⟨.ragError "Embedding generation timed out.", rfl, rfl⟩)⟩

/-- C7: on every successful `answer_query` call the reported sources are
exactly the document list the search stage returned — untrimmed, in the
search stage's order; trimming only affects the context string sent to the
completion stage. -/
theorem sources_reported_untrimmed (cfg : RetryConfig) (env : Env)
    (query : String) (docs : List String) (a : String) (srcs : List String)
    (hS : (search_documents cfg env query).result = .ok docs)
    (hR : (answer_query cfg env query).result = .ok (a, srcs)) :
    srcs = docs := by
  simp only [answer_query, hS] at hR
  split at hR
  · simp at hR
  · simp at hR
    exact hR.2.symm

/-- Witness for C7's theorem on the spec's happy-path oracle: search returns
`["doc1", "doc2"]` and the result reports exactly that list. -/
theorem sources_reported_untrimmed_witness :
    (search_documents ⟨3, 1, 8⟩ envTwoDocs "hello world").result =
      .ok ["doc1", "doc2"] ∧
    (answer_query ⟨3, 1, 8⟩ envTwoDocs "hello world").result =
      .ok ("answered text", ["doc1", "doc2"]) ∧
    (["doc1", "doc2"] : List String) = ["doc1", "doc2"] :=
  ⟨rfl, rfl,
   sources_reported_untrimmed ⟨3, 1, 8⟩ envTwoDocs "hello world"
     ["doc1", "doc2"] "answered text" ["doc1", "doc2"] rfl rfl⟩

lemma init_isOk (cfg : List (String × PyVal)) (ed : Option String)
    (t1 t2 t3 t4 t5 t6 : Int) :
    (RAGManager.init cfg ed t1 t2 t3 t4 t5 t6).isOk =
      ((getIntField cfg "embedding_timeout" t1).isOk &&
       (getIntField cfg "search_timeout" t2).isOk &&
       (getIntField cfg "chat_timeout" t3).isOk &&
       (getIntField cfg "retry_attempts" t4).isOk &&
       (getIntField cfg "retry_min_wait" t5).isOk &&
       (getIntField cfg "retry_max_wait" t6).isOk) := by
  unfold RAGManager.init
  cases getIntField cfg "embedding_timeout" t1 <;>
  cases getIntField cfg "search_timeout" t2 <;>
  cases getIntField cfg "chat_timeout" t3 <;>
  cases getIntField cfg "retry_attempts" t4 <;>
  cases getIntField cfg "retry_min_wait" t5 <;>
  cases getIntField cfg "retry_max_wait" t6 <;>
  rfl

lemma getIntField_isOk_of_all (cfg : List (String × PyVal)) (k : String)
    (d : Int)
    (h : ((List.lookup k cfg).all fun v => (pyInt v).isOk) = true) :
    (getIntField cfg k d).isOk = true := by
  cases hl : List.lookup k cfg with
  | none =>
    simp only [getIntField, hl]
    rfl
  | some v =>
    rw [hl] at h
    simp only [Option.all] at h
    simp [getIntField, hl, h]

/-- C2 (amended): `RAGManager.__init__` performs no validation of the
endpoint, key and deployment fields: whenever the six numeric fields are
absent or coercible by `int()`, construction succeeds — regardless of any
endpoint/key/deployment field being missing or empty.  Misconfiguration of
those fields is only discovered at call time; the source defines no
`ConfigurationError` and the constructor's only failure mode is the `int()`
coercion of the numeric fields. -/
theorem construction_skips_validation (cfg : List (String × PyVal))
    (h : ∀ k ∈ numericFields,
      ((List.lookup k cfg).all fun v => (pyInt v).isOk) = true) :
    (RAGManager.initDefault cfg).isOk = true := by
  unfold RAGManager.initDefault
  rw [init_isOk]
  have h1 := getIntField_isOk_of_all cfg "embedding_timeout" 15
    (h _ (by simp [numericFields]))
  have h2 := getIntField_isOk_of_all cfg "search_timeout" 20
    (h _ (by simp [numericFields]))
  have h3 := getIntField_isOk_of_all cfg "chat_timeout" 30
    (h _ (by simp [numericFields]))
  have h4 := getIntField_isOk_of_all cfg "retry_attempts" 3
    (h _ (by simp [numericFields]))
  have h5 := getIntField_isOk_of_all cfg "retry_min_wait" 1
    (h _ (by simp [numericFields]))
  have h6 := getIntField_isOk_of_all cfg "retry_max_wait" 8
    (h _ (by simp [numericFields]))
  simp [h1, h2, h3, h4, h5, h6]

/-- Witness for C2's theorem: a config whose `search_endpoint` is present
but empty (and every other field missing) still constructs successfully. -/
theorem construction_skips_validation_witness :
    (∀ k ∈ numericFields,
      ((List.lookup k [("search_endpoint", PyVal.vStr "")]).all
        fun v => (pyInt v).isOk) = true) ∧
    (RAGManager.initDefault [("search_endpoint", PyVal.vStr "")]).isOk = true :=
  ⟨by decide, construction_skips_validation _ (by decide)⟩

/-- C2 counterexample: constructing a manager from the empty configuration —
every endpoint, key and deployment field missing — raises nothing and
silently succeeds, storing `None` everywhere, contradicting the claim that
construction fails loudly on missing fields. -/
theorem construction_silent_success_counterexample :
    (RAGManager.initDefault []).isOk = true ∧
    RAGManager.initDefault [] =
      .ok ⟨none, none, none, none, none, none, none, 15, 20, 30, 3, 1, 8⟩ :=
  ⟨rfl, rfl⟩

/-- C10: the six numeric configuration fields are coerced with `int()` at
construction — a present value that `int()` rejects makes construction
raise, and with all six fields absent construction succeeds with the
defaults 15, 20, 30, 3, 1, 8. -/
theorem numeric_coercion_and_defaults (cfg : List (String × PyVal)) :
    (∀ k v, k ∈ numericFields → List.lookup k cfg = some v →
      (pyInt v).isOk = false → (RAGManager.initDefault cfg).isOk = false) ∧
    ((∀ k ∈ numericFields, List.lookup k cfg = none) →
      ∃ m, RAGManager.initDefault cfg = .ok m ∧
        m.embedding_timeout = 15 ∧ m.search_timeout = 20 ∧
        m.chat_timeout = 30 ∧ m.retry_attempts = 3 ∧
        m.retry_min_wait = 1 ∧ m.retry_max_wait = 8) := by
  constructor
  · intro k v hk hl hbad
    unfold RAGManager.initDefault
    rw [init_isOk]
    simp only [numericFields, List.mem_cons, List.not_mem_nil, or_false] at hk
    rcases hk with rfl | rfl | rfl | rfl | rfl | rfl <;>
      simp [getIntField, hl, hbad]
  · intro h
    have h1 : List.lookup "embedding_timeout" cfg = none :=
      h _ (by simp [numericFields])
    have h2 : List.lookup "search_timeout" cfg = none :=
      h _ (by simp [numericFields])
    have h3 : List.lookup "chat_timeout" cfg = none :=
      h _ (by simp [numericFields])
    have h4 : List.lookup "retry_attempts" cfg = none :=
      h _ (by simp [numericFields])
    have h5 : List.lookup "retry_min_wait" cfg = none :=
      h _ (by simp [numericFields])
    have h6 : List.lookup "retry_max_wait" cfg = none :=
      h _ (by simp [numericFields])
    refine ⟨⟨List.lookup "search_endpoint" cfg,
      List.lookup "search_api_key" cfg, List.lookup "index_name" cfg,
      List.lookup "openai_endpoint" cfg, List.lookup "openai_api_key" cfg,
      List.lookup "deployment_name" cfg,
      pyOr none (pyOr (List.lookup "embedding_deployment" cfg)
        (List.lookup "deployment_name" cfg)),
      15, 20, 30, 3, 1, 8⟩, ?_, rfl, rfl, rfl, rfl, rfl, rfl⟩
    simp [RAGManager.initDefault, RAGManager.init, getIntField,
      h1, h2, h3, h4, h5, h6]
    rfl

/-- Witness for C10's theorem: `retry_attempts = "three"` (rejected by
`int()`) makes construction fail; the empty config succeeds with the
defaults. -/
theorem numeric_coercion_and_defaults_witness :
    ("retry_attempts" ∈ numericFields ∧
     List.lookup "retry_attempts" [("retry_attempts", PyVal.vStr "three")] =
       some (PyVal.vStr "three") ∧
     (pyInt (PyVal.vStr "three")).isOk = false ∧
     (RAGManager.initDefault
       [("retry_attempts", PyVal.vStr "three")]).isOk = false) ∧
    (∃ m, RAGManager.initDefault [] = .ok m ∧
      m.embedding_timeout = 15 ∧ m.search_timeout = 20 ∧
      m.chat_timeout = 30 ∧ m.retry_attempts = 3 ∧
      m.retry_min_wait = 1 ∧ m.retry_max_wait = 8) :=
  ⟨⟨by decide, by decide, by decide,
    (numeric_coercion_and_defaults _).1 "retry_attempts" (PyVal.vStr "three")
      (by decide) (by decide) (by decide)⟩,
   (numeric_coercion_and_defaults []).2 (by decide)⟩

lemma nodup_fst_inj {α β : Type} {l : List (α × β)}
    (h : (l.map Prod.fst).Nodup) :
    ∀ p ∈ l, ∀ q ∈ l, p.1 = q.1 → p = q := by
  induction l with
  | nil =>
    intro p hp
    cases hp
  | cons a t ih =>
    rw [List.map_cons, List.nodup_cons] at h
    intro p hp q hq heq
    rcases List.mem_cons.mp hp with rfl | hp'
    · rcases List.mem_cons.mp hq with rfl | hq'
      · rfl
      · exfalso
        apply h.1
        rw [heq]
        exact List.mem_map_of_mem Prod.fst hq'
    · rcases List.mem_cons.mp hq with rfl | hq'
      · exfalso
        apply h.1
        rw [← heq]
        exact List.mem_map_of_mem Prod.fst hp'
      · exact ih h.2 p hp' q hq' heq

lemma check_client_true_iff (net : PyVal → ProbeOutcome)
    (cfg : List (String × PyVal)) :
    _check_client net cfg = true ↔
      ∃ v s, List.lookup "openai_endpoint" cfg = some v ∧ truthy v = true ∧
        net v = ProbeOutcome.resp s ∧ (s = 200 ∨ s = 401 ∨ s = 403) := by
  unfold _check_client
  cases hl : List.lookup "openai_endpoint" cfg with
  | none => simp
  | some v =>
    cases ht : truthy v with
    | false => simp [ht]
    | true =>
      cases hn : net v with
      | resp s =>
        simp [ht, hn]
        tauto
      | exc m => simp [ht, hn]

/-- C9: the startup validation report has exactly one boolean per tenant id
(in the tenant map's order, independently of any probe's outcome), and a
tenant is reported reachable exactly when its configured endpoint is
present, truthy, and its probe completed with HTTP status 200, 401 or 403;
every other outcome — any raised exception (timeouts included) or a missing
endpoint — yields `false`. -/
theorem validator_report_semantics (net : PyVal → ProbeOutcome)
    (clients : List (String × List (String × PyVal)))
    (hnd : (clients.map Prod.fst).Nodup) :
    (validate_azure_endpoints net clients).map Prod.fst =
      clients.map Prod.fst ∧
    ∀ cid cfg, (cid, cfg) ∈ clients →
      ((cid, true) ∈ validate_azure_endpoints net clients ↔
        ∃ v s, List.lookup "openai_endpoint" cfg = some v ∧
          truthy v = true ∧ net v = ProbeOutcome.resp s ∧
          (s = 200 ∨ s = 401 ∨ s = 403)) := by
  constructor
  · unfold validate_azure_endpoints
    rw [List.map_map]
    rfl
  · intro cid cfg hmem
    constructor
    · intro hin
      unfold validate_azure_endpoints at hin
      rcases List.mem_map.mp hin with ⟨p, hp, heq⟩
      have h1 : p.1 = cid := congrArg Prod.fst heq
      have hpe : p = (cid, cfg) :=
        nodup_fst_inj hnd p hp (cid, cfg) hmem h1
      have h2 : _check_client net p.2 = true := congrArg Prod.snd heq
      rw [hpe] at h2
      exact (check_client_true_iff net cfg).mp h2
    · intro hex
      have hc : _check_client net cfg = true :=
        (check_client_true_iff net cfg).mpr hex
      unfold validate_azure_endpoints
      refine List.mem_map.mpr ⟨(cid, cfg), hmem, ?_⟩
      simp [hc]

/-- Witness for C9's theorem on the spec's scenario: tenant A's probe
answers 401 (reachable), tenant B's probe times out (unreachable); the
report is exactly one entry per tenant. -/
theorem validator_report_semantics_witness :
    ((probeClients.map Prod.fst).Nodup ∧
     ("A", [("openai_endpoint", PyVal.vStr "https://a")]) ∈ probeClients) ∧
    ("A", true) ∈ validate_azure_endpoints probeNet probeClients ∧
    validate_azure_endpoints probeNet probeClients =
      [("A", true), ("B", false)] :=
  ⟨⟨by decide, by decide⟩,
   ((validator_report_semantics probeNet probeClients (by decide)).2 "A"
       [("openai_endpoint", PyVal.vStr "https://a")] (by decide)).mpr
     ⟨PyVal.vStr "https://a", 401, rfl, by decide, by decide, by decide⟩,
   by decide⟩
